import Mathlib

/-!
Verification development for the quizy quiz engine (src/quizy/core.py).

The Python module is shallowly embedded: dynamically typed answer values
become the inductive `PyVal`, the `Union[bool, float]` outcome of
`check_answer` becomes `CheckResult`, exceptions become `Except String`,
wall-clock time is threaded explicitly (each answer-provider call reports
the seconds it consumed, as a rational), and the callbacks of the
execution loop are recorded as an event trace.
-/

namespace Quizy

/-- ResultStatus enum from core.py. -/
inductive ResultStatus where
  | correct
  | incorrect
  | timeout
  | skipped
  | partialCredit
deriving DecidableEq, Repr

/-- A dynamically-typed Python value, restricted to the shapes that the
quiz engine actually passes around: the `None` sentinel, booleans,
integers, strings, lists of strings (MultipleSelect submissions and
canonical answers) and string-keyed dictionaries (Matching submissions
and canonical pairs). -/
inductive PyVal where
  | none
  | bool (b : Bool)
  | int (n : Int)
  | str (s : String)
  | list (xs : List String)
  | dict (m : List (String × String))
deriving DecidableEq, Repr

/-- Python truthiness of a `PyVal` (used by `user_answer or ""`). -/
def PyVal.truthy : PyVal → Bool
  | .none => false
  | .bool b => b
  | .int n => n != 0
  | .str s => !s.isEmpty
  | .list xs => !xs.isEmpty
  | .dict m => !m.isEmpty

/-- The `Union[bool, float]` result of `check_answer`: Python
distinguishes the two shapes with `isinstance(result, bool)`. -/
inductive CheckResult where
  | bool (b : Bool)
  | score (s : ℚ)
deriving DecidableEq, Repr

/-- Variant-specific data of the five question classes. -/
inductive QuestionVariant where
  | multipleChoice (options : List String) (correct_answer : String)
      (shuffle_options : Bool)
  | multipleSelect (options : List String) (correct_answers : List String)
      (allow_partial_credit : Bool) (shuffle_options : Bool)
  | shortText (correct_answer : String) (case_sensitive : Bool)
      (accepted_variations : List String)
  | trueFalse (correct_answer : Bool)
  | matching (pairs : List (String × String)) (shuffle_answers : Bool)
      (allow_partial_credit : Bool)
deriving DecidableEq, Repr

/-- A question: common fields of the `Question` base class plus the
variant payload.  (`metadata` carries no engine-relevant information and
is elided.) -/
structure Question where
  text : String
  explanation : Option String := Option.none
  time_limit : Option ℚ := Option.none
  variant : QuestionVariant
deriving DecidableEq, Repr

/-- The `self.correct_answer` attribute each subclass stores on the base
class, as a dynamic value. -/
def Question.correct_answer (q : Question) : PyVal :=
  match q.variant with
  | .multipleChoice _ c _ => .str c
  | .multipleSelect _ cs _ _ => .list cs
  | .shortText c _ _ => .str c
  | .trueFalse c => .bool c
  | .matching ps _ _ => .dict ps

/-- `dict.get` on an association-list model of a Python dict. -/
def dictGet (m : List (String × String)) (k : String) : Option String :=
  (m.find? (fun p => p.1 == k)).map (fun p => p.2)

/-- Python `==` on two dicts: same keys, and the same value at every
key. -/
def dictEqb (a b : List (String × String)) : Bool :=
  a.all (fun p => dictGet b p.1 == some p.2) &&
    b.all (fun p => dictGet a p.1 == some p.2)

/-- `MultipleSelectQuestion.check_answer` (core.py lines 300-322):
non-lists are incorrect; exact set equality is full credit; without
partial credit any deviation is `False`; with partial credit any wrong
selection returns the float `0.0`, and otherwise the float
`correct_selected / len(correct_answers)` is returned. -/
def checkMultipleSelect (correct_answers : List String)
    (allow_partial_credit : Bool) (ua : PyVal) : CheckResult :=
  match ua with
  | .list user =>
    if user.toFinset = correct_answers.toFinset then .bool true
    else if !allow_partial_credit then .bool false
    else
      let correct_selected := (user.toFinset ∩ correct_answers.toFinset).card
      let incorrect_selected := (user.toFinset \ correct_answers.toFinset).card
      let missed := (correct_answers.toFinset \ user.toFinset).card
      if incorrect_selected > 0 then .score 0
      else if missed > 0 then
        .score ((correct_selected : ℚ) / (correct_answers.length : ℚ))
      else .bool true
  | _ => .bool false

/-- `ShortTextQuestion.check_answer` (core.py lines 372-390) on a string
submission: strip the submission, lower-case everything when
case-insensitive, and compare against the canonical answer and every
accepted variation. -/
def checkShortText (correct_answer : String) (case_sensitive : Bool)
    (accepted_variations : List String) (u : String) : CheckResult :=
  let user_text := if case_sensitive then u.trim else u.trim.toLower
  let correct := if case_sensitive then correct_answer else correct_answer.toLower
  if user_text == correct then .bool true
  else .bool (accepted_variations.any (fun v =>
    user_text == (if case_sensitive then v else v.toLower)))

/-- `TrueFalseQuestion.check_answer` (core.py lines 424-439): booleans
compare directly, strings normalize to token sets, numbers compare their
non-zero-ness, everything else is incorrect. -/
def checkTrueFalse (correct_answer : Bool) (ua : PyVal) : CheckResult :=
  match ua with
  | .bool b => .bool (b == correct_answer)
  | .str s =>
    let normalized := s.trim.toLower
    if correct_answer then
      .bool (["true", "t", "yes", "y", "1"].contains normalized)
    else
      .bool (["false", "f", "no", "n", "0"].contains normalized)
  | .int n => .bool ((n != 0) == correct_answer)
  | _ => .bool false

/-- `MatchingQuestion.check_answer` (core.py lines 491-504): non-dicts
are incorrect; dict equality is full credit; without partial credit any
deviation is `False`; with partial credit the float
`correct_matches / len(pairs)` is returned. -/
def checkMatching (pairs : List (String × String))
    (allow_partial_credit : Bool) (ua : PyVal) : CheckResult :=
  match ua with
  | .dict user =>
    if dictEqb user pairs then .bool true
    else if !allow_partial_credit then .bool false
    else
      let correct_matches :=
        (user.filter (fun p => dictGet pairs p.1 == some p.2)).length
      .score ((correct_matches : ℚ) / (pairs.length : ℚ))
  | _ => .bool false

/-- Dispatch of `check_answer` over the five variants.  `ShortText` is
the one variant whose Python code calls `.strip()` on the submission and
therefore raises `AttributeError` on a non-string; that exception is the
`Except.error` branch. -/
def Question.check_answer (q : Question) (ua : PyVal) :
    Except String CheckResult :=
  match q.variant with
  | .multipleChoice _ c _ => .ok (.bool (ua == PyVal.str c))
  | .multipleSelect _ cs ap _ => .ok (checkMultipleSelect cs ap ua)
  | .shortText c cs vars =>
    match ua with
    | .str u => .ok (checkShortText c cs vars u)
    | _ => .error "AttributeError"
  | .trueFalse c => .ok (checkTrueFalse c ua)
  | .matching ps _ ap => .ok (checkMatching ps ap ua)

example :
    checkMultipleSelect ["2", "3", "5"] true (.list ["2", "3"]) =
      .score (2 / 3) := by
  simp +decide [checkMultipleSelect]

example :
    checkMultipleSelect ["2", "3", "5"] true (.list ["2", "4"]) =
      .score 0 := by
  simp +decide [checkMultipleSelect]

example :
    checkMatching [("a", "1"), ("b", "2")] true
      (.dict [("a", "1"), ("b", "2"), ("c", "3")]) = .score 1 := by
  simp +decide [checkMatching, dictEqb, dictGet]

/-- QuestionResult dataclass from core.py. -/
structure QuestionResult where
  question_index : Nat
  user_answer : PyVal
  correct_answer : PyVal
  status : ResultStatus
  time_taken : ℚ
  score : ℚ := 1
deriving DecidableEq, Repr

/-- QuizResult dataclass from core.py. -/
structure QuizResult where
  title : String
  total_questions : Nat
  correct_answers : Nat
  time_taken : ℚ
  question_results : List QuestionResult := []
  partial_answers : Nat := 0
deriving DecidableEq, Repr

/-- `QuizResult.score_percentage` (core.py lines 73-79). -/
def QuizResult.score_percentage (r : QuizResult) : ℚ :=
  if r.total_questions = 0 then 0
  else ((r.question_results.map QuestionResult.score).sum
          / (r.total_questions : ℚ)) * 100

/-- `QuizResult.average_time_per_question` (core.py lines 91-96). -/
def QuizResult.average_time_per_question (r : QuizResult) : ℚ :=
  if r.total_questions = 0 then 0
  else r.time_taken / (r.total_questions : ℚ)

/-- Quiz object state: configuration plus the `_result` slot that
`execute` overwrites.  (`_start_time` is subsumed by the explicit
elapsed-time threading of the execution model.) -/
structure Quiz where
  title : String
  questions : List Question := []
  time_limit : Option ℚ := Option.none
  allow_skip : Bool := false
  shuffle_options : Bool := false
  randomize_order : Bool := false
  show_progress : Bool := true
  result : Option QuizResult := Option.none

/-- Trace of the engine's interactions with its collaborators: the
pre-question callback, the answer-provider call, the post-question
callback and the timeout callback, in the order they happen. -/
inductive Event where
  | preQuestion (q : Question) (ordinal total : Nat)
  | getAnswer (q : Question) (index : Nat)
  | postQuestion (q : Question) (ordinal : Nat) (answer : PyVal)
      (status : ResultStatus) (time_taken : ℚ)
  | timeoutEvent (q : Question) (ordinal total : Nat)
deriving DecidableEq, Repr

/-- `Quiz.is_time_up` at a question boundary, given the elapsed wall
time: `remaining = max(0, limit - elapsed)` and the check is
`remaining <= 0`. -/
def isTimeUp (limit : Option ℚ) (elapsed : ℚ) : Bool :=
  match limit with
  | Option.none => false
  | some l => decide (max 0 (l - elapsed) ≤ 0)

/-- `user_answer or ""`: a falsy submitted value (including the `None`
sentinel) is recorded as the empty string. -/
def recordedAnswer (ua : PyVal) : PyVal :=
  if ua.truthy then ua else .str ""

/-- Status/score mapping of the execution loops (identical in
`execute` and `execute_async`): booleans map to CORRECT/INCORRECT with
scores 1/0, fractional outcomes map to PARTIAL when positive and to
INCORRECT when zero, keeping the fraction as the score.  The two `Nat`s
are the increments of `correct_count` and `partial_count`. -/
def scoreOutcome (cr : CheckResult) : ResultStatus × ℚ × Nat × Nat :=
  match cr with
  | .bool true => (.correct, 1, 1, 0)
  | .bool false => (.incorrect, 0, 0, 0)
  | .score s => if s > 0 then (.partialCredit, s, 0, 1) else (.incorrect, s, 0, 0)

/-- Handling of one acquired answer: the `None` sentinel is SKIPPED with
score 0 before any check runs; otherwise the variant's `check_answer`
decides status and score (and may raise, for ShortText on a
non-string). -/
def answeredStep (q : Question) (ua : PyVal) :
    Except String (ResultStatus × ℚ × Nat × Nat) :=
  match ua with
  | .none => .ok (.skipped, 0, 0, 0)
  | _ => (q.check_answer ua).map scoreOutcome

/-- The TIMEOUT results the synchronous loop synthesizes when the
aggregate budget is exhausted at the boundary of question `i` (1-based)
out of `total`: `remaining_questions = total - i` entries, each indexed
`i + j - 1` and each carrying the *current* question's correct answer
(core.py lines 625-636). -/
def timeoutResults (q : Question) (i total : Nat) : List QuestionResult :=
  (List.range (total - i)).map (fun j =>
    { question_index := i + j - 1
      user_answer := .str ""
      correct_answer := q.correct_answer
      status := .timeout
      time_taken := 0
      score := 0 })

/-- The synchronous per-question loop of `Quiz.execute` (core.py lines
620-675).  Arguments: aggregate limit, answer provider (returning the
submitted value and the wall time the call consumed), total run-order
count, remaining questions, 1-based ordinal of the next question,
elapsed wall time.  Returns the event trace plus, unless a check raised,
the question results, the correct and partial counters, and the final
elapsed time. -/
def execLoop (limit : Option ℚ) (provider : Question → Nat → PyVal × ℚ)
    (total : Nat) :
    List Question → Nat → ℚ →
      List Event × Except String (List QuestionResult × Nat × Nat × ℚ)
  | [], _, elapsed => ([], .ok ([], 0, 0, elapsed))
  | q :: rest, i, elapsed =>
    if isTimeUp limit elapsed then
      ([.timeoutEvent q i total], .ok (timeoutResults q i total, 0, 0, elapsed))
    else
      let (ua, t) := provider q (i - 1)
      match answeredStep q ua with
      | .error e => ([.preQuestion q i total, .getAnswer q (i - 1)], .error e)
      | .ok (st, sc, c, p) =>
        let res : QuestionResult :=
          { question_index := i - 1
            user_answer := recordedAnswer ua
            correct_answer := q.correct_answer
            status := st
            time_taken := t
            score := sc }
        let next := execLoop limit provider total rest (i + 1) (elapsed + t)
        (Event.preQuestion q i total :: Event.getAnswer q (i - 1) ::
            Event.postQuestion q i (recordedAnswer ua) st t :: next.1,
         match next.2 with
         | .error e => .error e
         | .ok (rs, c', p', el) => .ok (res :: rs, c + c', p + p', el))

/-- `Quiz.execute` (core.py lines 589-689).  `shuffle` is the oracle
standing for `random.shuffle` on the run-local copy of the question
list; the provider reports each answer together with the wall time the
acquisition took.  Returns the event trace and either the raised error
or the quiz result paired with the updated quiz object. -/
def Quiz.execute (quiz : Quiz) (shuffle : List Question → List Question)
    (provider : Question → Nat → PyVal × ℚ) :
    List Event × Except String (QuizResult × Quiz) :=
  if quiz.questions.isEmpty then ([], .error "No questions in quiz")
  else
    let questions_to_run :=
      if quiz.randomize_order then shuffle quiz.questions else quiz.questions
    let (evs, out) :=
      execLoop quiz.time_limit provider questions_to_run.length
        questions_to_run 1 0
    (evs,
     match out with
     | .error e => .error e
     | .ok (rs, c, p, elapsed) =>
       let qr : QuizResult :=
         { title := quiz.title
           total_questions := questions_to_run.length
           correct_answers := c
           time_taken := elapsed
           question_results := rs
           partial_answers := p }
       .ok (qr, { quiz with result := some qr }))

/-- The asynchronous per-question loop of `Quiz.execute_async` (core.py
lines 722-789).  Differences from the synchronous loop: on aggregate
timeout it breaks without synthesizing any results, and a question with
a truthy `time_limit` bounds the answer wait — when the provider's wall
time exceeds that bound, a single TIMEOUT result for that question is
recorded (the wait having consumed the bound itself) and the loop
continues. -/
def execLoopAsync (limit : Option ℚ) (provider : Question → Nat → PyVal × ℚ)
    (total : Nat) :
    List Question → Nat → ℚ →
      List Event × Except String (List QuestionResult × Nat × Nat × ℚ)
  | [], _, elapsed => ([], .ok ([], 0, 0, elapsed))
  | q :: rest, i, elapsed =>
    if isTimeUp limit elapsed then
      ([.timeoutEvent q i total], .ok ([], 0, 0, elapsed))
    else
      let (ua, t) := provider q (i - 1)
      let boundedTimeout :=
        match q.time_limit with
        | some tl => !(tl == 0) && decide (tl < t)
        | Option.none => false
      if boundedTimeout then
        let tl := q.time_limit.getD 0
        let res : QuestionResult :=
          { question_index := i - 1
            user_answer := .str ""
            correct_answer := q.correct_answer
            status := .timeout
            time_taken := tl
            score := 0 }
        let next := execLoopAsync limit provider total rest (i + 1) (elapsed + tl)
        (Event.preQuestion q i total :: Event.getAnswer q (i - 1) :: next.1,
         match next.2 with
         | .error e => .error e
         | .ok (rs, c', p', el) => .ok (res :: rs, c', p', el))
      else
        match answeredStep q ua with
        | .error e => ([.preQuestion q i total, .getAnswer q (i - 1)], .error e)
        | .ok (st, sc, c, p) =>
          let res : QuestionResult :=
            { question_index := i - 1
              user_answer := recordedAnswer ua
              correct_answer := q.correct_answer
              status := st
              time_taken := t
              score := sc }
          let next := execLoopAsync limit provider total rest (i + 1) (elapsed + t)
          (Event.preQuestion q i total :: Event.getAnswer q (i - 1) ::
              Event.postQuestion q i (recordedAnswer ua) st t :: next.1,
           match next.2 with
           | .error e => .error e
           | .ok (rs, c', p', el) => .ok (res :: rs, c + c', p + p', el))

/-- `MultipleChoiceQuestion.__init__` (core.py lines 180-213): raises
when the correct answer is not among the options; only then is the
object assembled. -/
def MultipleChoiceQuestion.init (text : String) (options : List String)
    (correct_answer : String) (explanation : Option String := Option.none)
    (time_limit : Option ℚ := Option.none) (shuffle_options : Bool := false) :
    Except String Question :=
  if correct_answer ∉ options then
    .error "Correct answer must be one of the options"
  else
    .ok { text, explanation, time_limit,
          variant := .multipleChoice options correct_answer shuffle_options }

/-- `MultipleSelectQuestion.__init__` (core.py lines 250-290): raises on
the first correct answer that is not among the options, then when fewer
than 2 correct answers are given; only then is the object assembled. -/
def MultipleSelectQuestion.init (text : String) (options : List String)
    (correct_answers : List String) (explanation : Option String := Option.none)
    (time_limit : Option ℚ := Option.none)
    (allow_partial_credit : Bool := false) (shuffle_options : Bool := false) :
    Except String Question :=
  match correct_answers.find? (fun a => !options.contains a) with
  | some _ => .error "Answer must be in options"
  | Option.none =>
    if correct_answers.length < 2 then
      .error "Multiple select must have at least 2 correct answers"
    else
      .ok { text, explanation, time_limit,
            variant := .multipleSelect options correct_answers
              allow_partial_credit shuffle_options }

/-- `TrueFalseQuestion.__init__` (core.py lines 396-422): raises when
the canonical answer is not strictly a boolean. -/
def TrueFalseQuestion.init (text : String) (correct_answer : PyVal)
    (explanation : Option String := Option.none)
    (time_limit : Option ℚ := Option.none) : Except String Question :=
  match correct_answer with
  | .bool b => .ok { text, explanation, time_limit, variant := .trueFalse b }
  | _ => .error "Correct answer must be a boolean"

/-- `MatchingQuestion.__init__` (core.py lines 445-481): raises when
fewer than 2 pairs are given (`not pairs or len(pairs) < 2`). -/
def MatchingQuestion.init (text : String) (pairs : List (String × String))
    (explanation : Option String := Option.none)
    (time_limit : Option ℚ := Option.none) (shuffle_answers : Bool := true)
    (allow_partial_credit : Bool := false) : Except String Question :=
  if pairs.isEmpty ∨ pairs.length < 2 then .error "Must have at least 2 pairs"
  else
    .ok { text, explanation, time_limit,
          variant := .matching pairs shuffle_answers allow_partial_credit }

/-- `Quiz.execute_async` (core.py lines 691-803). -/
def Quiz.execute_async (quiz : Quiz) (shuffle : List Question → List Question)
    (provider : Question → Nat → PyVal × ℚ) :
    List Event × Except String (QuizResult × Quiz) :=
  if quiz.questions.isEmpty then ([], .error "No questions in quiz")
  else
    let questions_to_run :=
      if quiz.randomize_order then shuffle quiz.questions else quiz.questions
    let (evs, out) :=
      execLoopAsync quiz.time_limit provider questions_to_run.length
        questions_to_run 1 0
    (evs,
     match out with
     | .error e => .error e
     | .ok (rs, c, p, elapsed) =>
       let qr : QuizResult :=
         { title := quiz.title
           total_questions := questions_to_run.length
           correct_answers := c
           time_taken := elapsed
           question_results := rs
           partial_answers := p }
       .ok (qr, { quiz with result := some qr }))

/-- The questions handed to the answer provider, in order, read off an
event trace. -/
def askedQuestions (evs : List Event) : List Question :=
  evs.filterMap (fun e =>
    match e with
    | .getAnswer q _ => some q
    | _ => Option.none)

/-- Claim C1: for a MultipleSelectQuestion with partial credit enabled,
`check_answer` returns `True` on a set-equal submission; otherwise any
submission containing an option outside the correct-answer set scores
the float 0.0 even if correct items are present; otherwise the score is
the number of correctly selected items divided by the total number of
correct answers.  With partial credit disabled, any submission not
set-equal to the correct set returns `False`. -/
theorem C1_multiple_select_partial_credit (txt : String) (ex : Option String)
    (tl : Option ℚ) (opts cs user : List String) (sh : Bool) :
    (user.toFinset = cs.toFinset →
      (Question.mk txt ex tl (.multipleSelect opts cs true sh)).check_answer
        (.list user) = .ok (.bool true)) ∧
    (user.toFinset ≠ cs.toFinset → (∃ x ∈ user, x ∉ cs) →
      (Question.mk txt ex tl (.multipleSelect opts cs true sh)).check_answer
        (.list user) = .ok (.score 0)) ∧
    (user.toFinset ≠ cs.toFinset → (∀ x ∈ user, x ∈ cs) →
      (Question.mk txt ex tl (.multipleSelect opts cs true sh)).check_answer
        (.list user) =
        .ok (.score (((user.toFinset ∩ cs.toFinset).card : ℚ) /
          (cs.length : ℚ)))) ∧
    (user.toFinset ≠ cs.toFinset →
      (Question.mk txt ex tl (.multipleSelect opts cs false sh)).check_answer
        (.list user) = .ok (.bool false)) := by
  refine ⟨fun h => ?_, fun hne hw => ?_, fun hne hsub => ?_, fun hne => ?_⟩ <;>
    simp only [Question.check_answer, checkMultipleSelect]
  · rw [if_pos h]
  · obtain ⟨x, hxu, hxc⟩ := hw
    have hx : (user.toFinset \ cs.toFinset).Nonempty :=
      ⟨x, by simp [List.mem_toFinset, hxu, hxc]⟩
    simp [hne, hx]
  · have hsubset : user.toFinset ⊆ cs.toFinset := by
      intro x hx
      exact List.mem_toFinset.mpr (hsub x (List.mem_toFinset.mp hx))
    have h1 : ¬(user.toFinset \ cs.toFinset).Nonempty := by
      simp [Finset.sdiff_eq_empty_iff_subset.mpr hsubset]
    have h2 : (cs.toFinset \ user.toFinset).Nonempty := by
      rw [Finset.sdiff_nonempty]
      intro hcs
      exact hne (Finset.Subset.antisymm hsubset hcs)
    simp [hne, h1, h2]
  · simp [hne]

/-- Witness for C1 at the spec's primes example: options 2/3/4/5,
correct set 2/3/5, submission 2/3 scores 2/3. -/
theorem C1_multiple_select_partial_credit_witness :
    (Question.mk "primes" Option.none Option.none
        (.multipleSelect ["2", "3", "4", "5"] ["2", "3", "5"] true false)).check_answer
      (.list ["2", "3"]) = .ok (.score (2 / 3)) := by
  have h := (C1_multiple_select_partial_credit "primes" Option.none Option.none
      ["2", "3", "4", "5"] ["2", "3", "5"] ["2", "3"] false).2.2.1
    (by decide) (by decide)
  rw [h, show (["2", "3"].toFinset ∩ ["2", "3", "5"].toFinset).card = 2 from rfl]
  norm_num

/-- Claim C5: score_percentage is the sum of per-question scores over
total_questions, times 100 (partial credit counts), and both
score_percentage and average_time_per_question are 0 when
total_questions is 0.  The last conjunct is the spec's example: 7 full
plus 3 half-credit answers out of 10 give 85%, not 70%. -/
theorem C5_score_percentage_aggregation (r : QuizResult) :
    (r.total_questions ≠ 0 →
      r.score_percentage =
        ((r.question_results.map QuestionResult.score).sum /
          (r.total_questions : ℚ)) * 100 ∧
      r.average_time_per_question = r.time_taken / (r.total_questions : ℚ)) ∧
    (r.total_questions = 0 →
      r.score_percentage = 0 ∧ r.average_time_per_question = 0) ∧
    (QuizResult.mk "ex" 10 7 0
      ((List.replicate 7 (QuestionResult.mk 0 (.str "a") (.str "a") .correct 0 1)) ++
        (List.replicate 3 (QuestionResult.mk 0 (.str "b") (.str "a") .partialCredit 0 (1 / 2))))
      3).score_percentage = 85 := by
  refine ⟨fun h => ?_, fun h => ?_, ?_⟩
  · rw [QuizResult.score_percentage, QuizResult.average_time_per_question,
      if_neg h, if_neg h]
    exact ⟨rfl, rfl⟩
  · rw [QuizResult.score_percentage, QuizResult.average_time_per_question,
      if_pos h, if_pos h]
    exact ⟨rfl, rfl⟩
  · norm_num [QuizResult.score_percentage, List.sum_replicate]

/-- Witness for C5 at a two-question result and at an empty result. -/
theorem C5_score_percentage_aggregation_witness :
    (QuizResult.mk "w" 2 1 6
        [QuestionResult.mk 0 (.str "x") (.str "x") .correct 1 1,
         QuestionResult.mk 1 (.str "y") (.str "z") .incorrect 5 0]
      0).score_percentage = 50 ∧
    (QuizResult.mk "e" 0 0 3 [] 0).score_percentage = 0 ∧
    (QuizResult.mk "e" 0 0 3 [] 0).average_time_per_question = 0 := by
  have h1 := (C5_score_percentage_aggregation
    (QuizResult.mk "w" 2 1 6
      [QuestionResult.mk 0 (.str "x") (.str "x") .correct 1 1,
       QuestionResult.mk 1 (.str "y") (.str "z") .incorrect 5 0] 0)).1
    (by decide)
  have h2 := (C5_score_percentage_aggregation (QuizResult.mk "e" 0 0 3 [] 0)).2.1 rfl
  refine ⟨?_, h2.1, h2.2⟩
  rw [h1.1]
  norm_num

/-- Claim C6: executing a quiz with an empty question list fails
immediately in both the synchronous and asynchronous paths, with an
empty event trace — so neither the answer source nor any callback is
ever invoked. -/
theorem C6_empty_quiz_rejected (quiz : Quiz)
    (shuffle : List Question → List Question)
    (provider : Question → Nat → PyVal × ℚ)
    (h : quiz.questions = []) :
    Quiz.execute quiz shuffle provider = ([], .error "No questions in quiz") ∧
    Quiz.execute_async quiz shuffle provider =
      ([], .error "No questions in quiz") := by
  rw [Quiz.execute, Quiz.execute_async]
  simp [h]

/-- Witness for C6 at a concrete empty quiz. -/
theorem C6_empty_quiz_rejected_witness :
    Quiz.execute (Quiz.mk "empty" [] Option.none false false false true Option.none)
        (fun l => l) (fun _ _ => (.none, 0)) =
      ([], .error "No questions in quiz") ∧
    Quiz.execute_async (Quiz.mk "empty" [] Option.none false false false true Option.none)
        (fun l => l) (fun _ _ => (.none, 0)) =
      ([], .error "No questions in quiz") :=
  C6_empty_quiz_rejected _ _ _ rfl

/-- Claim C8: malformed variant configurations are rejected at
construction time — a MultipleChoice correct answer outside the options,
a MultipleSelect correct answer outside the options or fewer than 2
correct answers, a Matching question with fewer than 2 pairs, and a
non-boolean TrueFalse canonical answer all fail to produce a question
object. -/
theorem C8_construction_rejects_malformed (txt : String)
    (opts cs : List String) (c : String) (pairs : List (String × String))
    (v : PyVal) :
    (c ∉ opts → MultipleChoiceQuestion.init txt opts c =
      .error "Correct answer must be one of the options") ∧
    ((∃ a ∈ cs, a ∉ opts) →
      MultipleSelectQuestion.init txt opts cs = .error "Answer must be in options") ∧
    ((∀ a ∈ cs, a ∈ opts) → cs.length < 2 →
      MultipleSelectQuestion.init txt opts cs =
        .error "Multiple select must have at least 2 correct answers") ∧
    (pairs.length < 2 →
      MatchingQuestion.init txt pairs = .error "Must have at least 2 pairs") ∧
    ((∀ b : Bool, v ≠ .bool b) →
      TrueFalseQuestion.init txt v = .error "Correct answer must be a boolean") := by
  refine ⟨fun h => ?_, fun h => ?_, fun hall hlen => ?_, fun h => ?_, fun h => ?_⟩
  · simp [MultipleChoiceQuestion.init, h]
  · rw [MultipleSelectQuestion.init]
    obtain ⟨a, ha, hao⟩ := h
    have : (cs.find? (fun a => !opts.contains a)).isSome := by
      rw [List.find?_isSome]
      exact ⟨a, ha, by simp [hao]⟩
    obtain ⟨w, hw⟩ := Option.isSome_iff_exists.mp this
    rw [hw]
  · rw [MultipleSelectQuestion.init]
    have : cs.find? (fun a => !opts.contains a) = Option.none := by
      rw [List.find?_eq_none]
      intro a ha
      simp [hall a ha]
    rw [this]
    simp [hlen]
  · simp [MatchingQuestion.init, h]
  · cases v with
    | bool b => exact absurd rfl (h b)
    | none => rfl
    | int n => rfl
    | str s => rfl
    | list xs => rfl
    | dict m => rfl

/-- Witness for C8: each malformed configuration rejected at a concrete
input. -/
theorem C8_construction_rejects_malformed_witness :
    MultipleChoiceQuestion.init "q" ["A", "B"] "C" =
      .error "Correct answer must be one of the options" ∧
    MultipleSelectQuestion.init "q" ["A", "B"] ["A", "Z"] =
      .error "Answer must be in options" ∧
    MultipleSelectQuestion.init "q" ["A", "B"] ["A"] =
      .error "Multiple select must have at least 2 correct answers" ∧
    MatchingQuestion.init "q" [("A", "1")] = .error "Must have at least 2 pairs" ∧
    TrueFalseQuestion.init "q" (.str "true") =
      .error "Correct answer must be a boolean" :=
  ⟨(C8_construction_rejects_malformed "q" ["A", "B"] [] "C" [] .none).1 (by decide),
   (C8_construction_rejects_malformed "q" ["A", "B"] ["A", "Z"] "" [] .none).2.1
     ⟨"Z", by decide, by decide⟩,
   (C8_construction_rejects_malformed "q" ["A", "B"] ["A"] "" [] .none).2.2.1
     (by decide) (by decide),
   (C8_construction_rejects_malformed "q" [] [] "" [("A", "1")] .none).2.2.2.1
     (by decide),
   (C8_construction_rejects_malformed "q" [] [] "" [] (.str "true")).2.2.2.2
     (fun b => by simp)⟩

/-- Claim C4 counterexample: with partial credit enabled, a
MultipleSelect submission containing a wrong option returns the
non-boolean float 0.0, and a Matching submission whose extra key does
not block per-key matching returns the non-boolean float 1.0 — refuting
"no variant ever returns a non-boolean value equal to 0.0 or 1.0". -/
theorem C4_counterexample :
    (Question.mk "q" Option.none Option.none
        (.multipleSelect ["a", "b", "c"] ["a", "b"] true false)).check_answer
      (.list ["c", "a"]) = .ok (.score 0) ∧
    (Question.mk "m" Option.none Option.none
        (.matching [("a", "1"), ("b", "2")] true true)).check_answer
      (.dict [("a", "1"), ("b", "2"), ("c", "3")]) = .ok (.score 1) := by
  constructor
  · simp +decide [Question.check_answer, checkMultipleSelect]
  · simp +decide [Question.check_answer, checkMatching, dictEqb, dictGet]

/-- With no duplicate keys in the submitted dict, at most `len(pairs)`
of its entries can match their canonical pair. -/
theorem correct_matches_le_pairs (pairs user : List (String × String))
    (h : (user.map Prod.fst).Nodup) :
    (user.filter (fun p => dictGet pairs p.1 == some p.2)).length ≤
      pairs.length := by
  set f := user.filter (fun p => dictGet pairs p.1 == some p.2) with hf
  have hsub : f.Sublist user := List.filter_sublist _
  have hnodup : (f.map Prod.fst).Nodup := List.Nodup.sublist (hsub.map _) h
  have hmem : ∀ k ∈ f.map Prod.fst, k ∈ pairs.map Prod.fst := by
    intro k hk
    obtain ⟨p, hp, rfl⟩ := List.mem_map.mp hk
    have hfp : (dictGet pairs p.1 == some p.2) = true := by
      have := List.mem_filter.mp (hf ▸ hp)
      exact this.2
    have hget : dictGet pairs p.1 = some p.2 := by
      exact eq_of_beq hfp
    rw [dictGet, Option.map_eq_some'] at hget
    obtain ⟨r, hr, _⟩ := hget
    have hrmem : r ∈ pairs := List.mem_of_find?_eq_some hr
    have hreq := List.find?_some hr
    rw [List.mem_map]
    exact ⟨r, hrmem, eq_of_beq hreq⟩
  calc f.length = (f.map Prod.fst).length := (List.length_map _ _).symm
    _ = (f.map Prod.fst).toFinset.card := (List.toFinset_card_of_nodup hnodup).symm
    _ ≤ (pairs.map Prod.fst).toFinset.card := by
        refine Finset.card_le_card ?_
        intro k hk
        exact List.mem_toFinset.mpr (hmem k (List.mem_toFinset.mp hk))
    _ ≤ (pairs.map Prod.fst).length := List.toFinset_card_le _
    _ = pairs.length := List.length_map _ _

/-- ShortText checking of a string submission always yields a strict
boolean. -/
theorem checkShortText_shape (c : String) (cs : Bool) (vars : List String)
    (u : String) : ∃ b, checkShortText c cs vars u = .bool b := by
  simp only [checkShortText]
  split <;> split <;> exact ⟨_, rfl⟩

/-- TrueFalse checking always yields a strict boolean. -/
theorem checkTrueFalse_shape (c : Bool) (ua : PyVal) :
    ∃ b, checkTrueFalse c ua = .bool b := by
  cases ua <;> simp only [checkTrueFalse] <;>
    first
    | exact ⟨_, rfl⟩
    | (split <;> exact ⟨_, rfl⟩)

/-- Claim C4 (amended): for every question variant and every submitted
answer, `check_answer` either raises (only ShortText, on a non-string
submission) or returns a strict boolean or a fractional score in the
closed interval [0, 1]; the non-boolean scores 0.0 and 1.0 do occur.
(The submitted dict of a Matching answer has no duplicate keys, as any
Python dict.) -/
theorem C4_check_outcome_shape (q : Question) (ua : PyVal)
    (hdict : ∀ m, ua = PyVal.dict m → (m.map Prod.fst).Nodup) :
    (∃ e, q.check_answer ua = .error e) ∨
    (∃ b, q.check_answer ua = .ok (.bool b)) ∨
    (∃ s, q.check_answer ua = .ok (.score s) ∧ 0 ≤ s ∧ s ≤ 1) := by
  obtain ⟨txt, ex, tl, v⟩ := q
  cases v with
  | multipleChoice opts c sh =>
    exact Or.inr (Or.inl ⟨_, rfl⟩)
  | shortText c cs vars =>
    cases ua with
    | str u =>
      obtain ⟨b, hb⟩ := checkShortText_shape c cs vars u
      exact Or.inr (Or.inl ⟨b, by simp only [Question.check_answer, hb]⟩)
    | none => exact Or.inl ⟨_, rfl⟩
    | bool b => exact Or.inl ⟨_, rfl⟩
    | int n => exact Or.inl ⟨_, rfl⟩
    | list xs => exact Or.inl ⟨_, rfl⟩
    | dict m => exact Or.inl ⟨_, rfl⟩
  | trueFalse c =>
    obtain ⟨b, hb⟩ := checkTrueFalse_shape c ua
    exact Or.inr (Or.inl ⟨b, by simp only [Question.check_answer, hb]⟩)
  | multipleSelect opts cs ap sh =>
    simp only [Question.check_answer]
    cases ua with
    | list user =>
      simp only [checkMultipleSelect]
      by_cases he : user.toFinset = cs.toFinset
      · exact Or.inr (Or.inl ⟨true, by rw [if_pos he]⟩)
      · rw [if_neg he]
        cases ap with
        | false => exact Or.inr (Or.inl ⟨false, rfl⟩)
        | true =>
          simp only [Bool.not_true, Bool.false_eq_true, if_false]
          by_cases hw : 0 < (user.toFinset \ cs.toFinset).card
          · exact Or.inr (Or.inr ⟨0, by rw [if_pos hw], le_refl 0, by norm_num⟩)
          · have hsubset : user.toFinset ⊆ cs.toFinset := by
              rw [← Finset.sdiff_eq_empty_iff_subset, ← Finset.card_eq_zero]
              omega
            have hmiss : 0 < (cs.toFinset \ user.toFinset).card := by
              refine Finset.card_pos.mpr ?_
              rw [Finset.sdiff_nonempty]
              intro hcs
              exact he (Finset.Subset.antisymm hsubset hcs)
            refine Or.inr (Or.inr ⟨_, by rw [if_neg hw, if_pos hmiss], ?_, ?_⟩)
            · positivity
            · have hcs0 : cs.toFinset.Nonempty := by
                obtain ⟨x, hx⟩ := Finset.card_pos.mp hmiss
                exact ⟨x, Finset.sdiff_subset hx⟩
              have hlen : 0 < cs.length := by
                obtain ⟨x, hx⟩ := hcs0
                cases cs with
                | nil => simp at hx
                | cons a l => simp
              rw [div_le_one (by exact_mod_cast hlen)]
              have hcard : (user.toFinset ∩ cs.toFinset).card ≤ cs.length :=
                le_trans (Finset.card_le_card Finset.inter_subset_right)
                  (List.toFinset_card_le _)
              exact_mod_cast hcard
    | none => exact Or.inr (Or.inl ⟨false, rfl⟩)
    | bool b => exact Or.inr (Or.inl ⟨false, rfl⟩)
    | int n => exact Or.inr (Or.inl ⟨false, rfl⟩)
    | str s => exact Or.inr (Or.inl ⟨false, rfl⟩)
    | dict m => exact Or.inr (Or.inl ⟨false, rfl⟩)
  | matching ps sh ap =>
    simp only [Question.check_answer]
    cases ua with
    | dict user =>
      simp only [checkMatching]
      by_cases he : dictEqb user ps = true
      · exact Or.inr (Or.inl ⟨true, by rw [if_pos he]⟩)
      · rw [if_neg he]
        cases ap with
        | false => exact Or.inr (Or.inl ⟨false, rfl⟩)
        | true =>
          simp only [Bool.not_true, Bool.false_eq_true, if_false]
          refine Or.inr (Or.inr ⟨_, rfl, ?_, ?_⟩)
          · positivity
          · cases hps : ps with
            | nil =>
              simp [dictGet]
            | cons p0 ptl =>
              rw [← hps]
              have hlen : 0 < ps.length := by rw [hps]; simp
              rw [div_le_one (by exact_mod_cast hlen)]
              exact_mod_cast correct_matches_le_pairs ps user (hdict user rfl)
    | none => exact Or.inr (Or.inl ⟨false, rfl⟩)
    | bool b => exact Or.inr (Or.inl ⟨false, rfl⟩)
    | int n => exact Or.inr (Or.inl ⟨false, rfl⟩)
    | str s => exact Or.inr (Or.inl ⟨false, rfl⟩)
    | list xs => exact Or.inr (Or.inl ⟨false, rfl⟩)

/-- Witness for C4 (amended) at a Matching question with a
duplicate-free submitted dict. -/
theorem C4_check_outcome_shape_witness :
    (∃ e, (Question.mk "m" Option.none Option.none
        (.matching [("a", "1"), ("b", "2")] true true)).check_answer
        (.dict [("a", "1"), ("c", "3")]) = .error e) ∨
    (∃ b, (Question.mk "m" Option.none Option.none
        (.matching [("a", "1"), ("b", "2")] true true)).check_answer
        (.dict [("a", "1"), ("c", "3")]) = .ok (.bool b)) ∨
    (∃ s, (Question.mk "m" Option.none Option.none
        (.matching [("a", "1"), ("b", "2")] true true)).check_answer
        (.dict [("a", "1"), ("c", "3")]) = .ok (.score s) ∧ 0 ≤ s ∧ s ≤ 1) :=
  C4_check_outcome_shape _ _ (fun m hm => by cases hm; decide)

theorem askedQuestions_nil : askedQuestions [] = [] := rfl

theorem askedQuestions_cons_pre (q : Question) (a b : Nat) (evs : List Event) :
    askedQuestions (Event.preQuestion q a b :: evs) = askedQuestions evs := rfl

theorem askedQuestions_cons_get (q : Question) (n : Nat) (evs : List Event) :
    askedQuestions (Event.getAnswer q n :: evs) = q :: askedQuestions evs := rfl

theorem askedQuestions_cons_post (q : Question) (a : Nat) (ua : PyVal)
    (st : ResultStatus) (t : ℚ) (evs : List Event) :
    askedQuestions (Event.postQuestion q a ua st t :: evs) =
      askedQuestions evs := rfl

theorem askedQuestions_cons_timeout (q : Question) (a b : Nat)
    (evs : List Event) :
    askedQuestions (Event.timeoutEvent q a b :: evs) = askedQuestions evs := rfl

/-- A zero aggregate budget is exhausted at the very first boundary. -/
theorem isTimeUp_zero : isTimeUp (some 0) 0 = true := by
  simp [isTimeUp]

/-- When the aggregate budget is found exhausted at a boundary, the
synchronous loop emits the timeout callback and synthesizes
`total - i` TIMEOUT results. -/
theorem execLoop_cons_timeup (limit : Option ℚ)
    (prov : Question → Nat → PyVal × ℚ) (total : Nat) (q : Question)
    (rest : List Question) (i : Nat) (elapsed : ℚ)
    (h : isTimeUp limit elapsed = true) :
    execLoop limit prov total (q :: rest) i elapsed =
      ([.timeoutEvent q i total],
       .ok (timeoutResults q i total, 0, 0, elapsed)) := by
  rw [execLoop, if_pos h]

/-- When the aggregate budget is found exhausted at a boundary, the
asynchronous loop emits the timeout callback and stops without
synthesizing any results. -/
theorem execLoopAsync_cons_timeup (limit : Option ℚ)
    (prov : Question → Nat → PyVal × ℚ) (total : Nat) (q : Question)
    (rest : List Question) (i : Nat) (elapsed : ℚ)
    (h : isTimeUp limit elapsed = true) :
    execLoopAsync limit prov total (q :: rest) i elapsed =
      ([.timeoutEvent q i total], .ok ([], 0, 0, elapsed)) := by
  rw [execLoopAsync, if_pos h]

/-- The synthesized TIMEOUT results all carry status TIMEOUT and
score 0, and there are `total - i` of them. -/
theorem timeoutResults_spec (q : Question) (i total : Nat) :
    (timeoutResults q i total).map QuestionResult.status =
        List.replicate (total - i) ResultStatus.timeout ∧
    (timeoutResults q i total).map QuestionResult.score =
        List.replicate (total - i) 0 ∧
    (timeoutResults q i total).length = total - i := by
  refine ⟨?_, ?_, by simp [timeoutResults]⟩
  · rw [timeoutResults, List.map_map,
      show (QuestionResult.status ∘ fun j =>
          QuestionResult.mk (i + j - 1) (.str "") q.correct_answer .timeout 0 0) =
        fun _ => ResultStatus.timeout from rfl,
      List.map_const', List.length_range]
  · rw [timeoutResults, List.map_map,
      show (QuestionResult.score ∘ fun j =>
          QuestionResult.mk (i + j - 1) (.str "") q.correct_answer .timeout 0 0) =
        fun _ => (0 : ℚ) from rfl,
      List.map_const', List.length_range]

/-- Every question the synchronous loop hands to the answer provider
comes from the front of the remaining question list, in order. -/
theorem execLoop_asked_in_order (limit : Option ℚ)
    (prov : Question → Nat → PyVal × ℚ) (total : Nat) :
    ∀ (qs : List Question) (i : Nat) (elapsed : ℚ),
      askedQuestions (execLoop limit prov total qs i elapsed).1 <+: qs := by
  intro qs
  induction qs with
  | nil =>
    intro i elapsed
    exact ⟨[], rfl⟩
  | cons q rest ih =>
    intro i elapsed
    rw [execLoop]
    by_cases h : isTimeUp limit elapsed = true
    · rw [if_pos h]
      exact ⟨q :: rest, rfl⟩
    · rw [if_neg h]
      rcases hp : prov q (i - 1) with ⟨ua, t⟩
      simp only [hp]
      rcases has : answeredStep q ua with e | val
      · simp only [has, askedQuestions_cons_pre, askedQuestions_cons_get,
          askedQuestions_nil]
        exact ⟨rest, rfl⟩
      · rcases val with ⟨st, sc, c, p⟩
        simp only [has, askedQuestions_cons_pre, askedQuestions_cons_get,
          askedQuestions_cons_post]
        obtain ⟨tl, htl⟩ := ih (i + 1) (elapsed + t)
        exact ⟨tl, by rw [List.cons_append, htl]⟩

/-- Every question the asynchronous loop hands to the answer provider
comes from the front of the remaining question list, in order. -/
theorem execLoopAsync_asked_in_order (limit : Option ℚ)
    (prov : Question → Nat → PyVal × ℚ) (total : Nat) :
    ∀ (qs : List Question) (i : Nat) (elapsed : ℚ),
      askedQuestions (execLoopAsync limit prov total qs i elapsed).1 <+: qs := by
  intro qs
  induction qs with
  | nil =>
    intro i elapsed
    exact ⟨[], rfl⟩
  | cons q rest ih =>
    intro i elapsed
    rw [execLoopAsync]
    by_cases h : isTimeUp limit elapsed = true
    · rw [if_pos h]
      exact ⟨q :: rest, rfl⟩
    · rw [if_neg h]
      rcases hp : prov q (i - 1) with ⟨ua, t⟩
      simp only [hp]
      by_cases hb : (match q.time_limit with
          | some tl => !(tl == 0) && decide (tl < t)
          | Option.none => false) = true
      · simp only [hb, if_true]
        obtain ⟨tl, htl⟩ := ih (i + 1)
          (elapsed + q.time_limit.getD 0)
        exact ⟨tl, by
          simp only [askedQuestions_cons_pre, askedQuestions_cons_get]
          rw [List.cons_append, htl]⟩
      · simp only [hb, Bool.false_eq_true, if_false]
        rcases has : answeredStep q ua with e | val
        · simp only [has, askedQuestions_cons_pre, askedQuestions_cons_get,
            askedQuestions_nil]
          exact ⟨rest, rfl⟩
        · rcases val with ⟨st, sc, c, p⟩
          simp only [has, askedQuestions_cons_pre, askedQuestions_cons_get,
            askedQuestions_cons_post]
          obtain ⟨tl, htl⟩ := ih (i + 1) (elapsed + t)
          exact ⟨tl, by rw [List.cons_append, htl]⟩

/-- Claim C2 (the code falls one short): at a quiz whose aggregate
budget of 0 seconds is already exhausted at the first question boundary
with both of its 2 questions unanswered, the synchronous `execute`
returns a QuizResult with `total_questions = 2` but only one synthesized
TIMEOUT QuestionResult (index 0) — not one result per question in the
run order as the claim states: `remaining_questions = len - i` skips the
boundary question itself. -/
theorem C2_timeout_results_fall_short :
    ((Quiz.mk "T"
        [Question.mk "q1" Option.none Option.none (.trueFalse true),
         Question.mk "q2" Option.none Option.none (.trueFalse false)]
        (some 0) false false false true Option.none).execute (fun l => l)
      (fun _ _ => (.bool true, 0))).2.map
      (fun p => (p.1.total_questions, p.1.question_results.map QuestionResult.status,
                 p.1.question_results.map QuestionResult.question_index)) =
    .ok (2, [.timeout], [0]) := by
  simp [Quiz.execute, execLoop, isTimeUp, timeoutResults, List.range_succ,
    Except.map, Question.correct_answer]

/-- Claim C3 counterexample: on the same aggregate-timeout boundary the
synchronous path synthesizes a TIMEOUT QuestionResult while the
asynchronous path records none, so the two paths do not produce the same
sequence of TIMEOUT QuestionResults. -/
theorem C3_counterexample :
    (((Quiz.mk "T"
        [Question.mk "q1" Option.none Option.none (.trueFalse true),
         Question.mk "q2" Option.none Option.none (.trueFalse false)]
        (some 0) false false false true Option.none).execute (fun l => l)
      (fun _ _ => (.bool true, 0))).2.map
      (fun p => p.1.question_results.map QuestionResult.status) =
      .ok [.timeout]) ∧
    (((Quiz.mk "T"
        [Question.mk "q1" Option.none Option.none (.trueFalse true),
         Question.mk "q2" Option.none Option.none (.trueFalse false)]
        (some 0) false false false true Option.none).execute_async (fun l => l)
      (fun _ _ => (.bool true, 0))).2.map
      (fun p => p.1.question_results.map QuestionResult.status) =
      .ok []) := by
  constructor
  · simp [Quiz.execute, execLoop, isTimeUp, timeoutResults, List.range_succ,
      Except.map, Question.correct_answer]
  · simp [Quiz.execute_async, execLoopAsync, isTimeUp, Except.map]

/-- Claim C3 (amended): when the aggregate budget is exhausted at a
question boundary, the asynchronous path fires the timeout callback once
and stops without synthesizing any TIMEOUT QuestionResults, while the
synchronous path synthesizes TIMEOUT results for all but one of the
questions not yet answered — the two paths are not identical.  Stated
for a budget of 0, exhausted at the first boundary. -/
theorem C3_async_timeout_records_nothing (quiz : Quiz)
    (shuffle : List Question → List Question)
    (provider : Question → Nat → PyVal × ℚ)
    (hsh : ∀ l : List Question, (shuffle l).Perm l)
    (hne : quiz.questions ≠ []) (hlim : quiz.time_limit = some 0) :
    ((Quiz.execute_async quiz shuffle provider).2.map
        (fun p => p.1.question_results) = .ok []) ∧
    (∃ q0, (Quiz.execute_async quiz shuffle provider).1 =
        [Event.timeoutEvent q0 1 quiz.questions.length]) ∧
    ((Quiz.execute quiz shuffle provider).2.map
        (fun p => p.1.question_results.map QuestionResult.status) =
      .ok (List.replicate (quiz.questions.length - 1) ResultStatus.timeout)) := by
  obtain ⟨ti, qs, tlim, ask, sopt, ro, sprog, res⟩ := quiz
  simp only at hne hlim
  subst hlim
  have hperm : (if ro = true then shuffle qs else qs).Perm qs := by
    cases ro with
    | true => simpa using hsh qs
    | false => simp
  have hnil : (if ro = true then shuffle qs else qs) ≠ [] := by
    intro h
    exact hne (List.Perm.eq_nil (h ▸ hperm).symm)
  obtain ⟨q0, rest, hcons⟩ := List.exists_cons_of_ne_nil hnil
  have hempty : qs.isEmpty = false := by
    simpa [List.isEmpty_iff] using hne
  have hlen : (if ro = true then shuffle qs else qs).length = qs.length :=
    hperm.length_eq
  refine ⟨?_, ⟨q0, ?_⟩, ?_⟩ <;>
    simp only [Quiz.execute, Quiz.execute_async, hempty, Bool.false_eq_true,
      if_false, hcons, ← hlen]
  · rw [execLoopAsync_cons_timeup _ _ _ _ _ _ _ isTimeUp_zero]
    simp [Except.map]
  · rw [execLoopAsync_cons_timeup _ _ _ _ _ _ _ isTimeUp_zero]
  · rw [execLoop_cons_timeup _ _ _ _ _ _ _ isTimeUp_zero]
    simp only [Except.map, hcons]
    rw [(timeoutResults_spec q0 1 (q0 :: rest).length).1]

/-- Claim C7: an explicit no-answer sentinel from the answer source
yields a SKIPPED result with score 0, and the engine's behavior is
independent of the `allow_skip` configuration flag (the flag is never
read during execution, in either path). -/
theorem C7_skip_sentinel (q : Question) (title : String) (b so sp : Bool)
    (t : ℚ) (quiz : Quiz) (shuffle : List Question → List Question)
    (provider : Question → Nat → PyVal × ℚ) :
    (((Quiz.mk title [q] Option.none b so false sp Option.none).execute
        (fun l => l) (fun _ _ => (.none, t))).2.map
      (fun p => p.1.question_results) =
      .ok [QuestionResult.mk 0 (.str "") q.correct_answer .skipped t 0]) ∧
    ((Quiz.execute { quiz with allow_skip := b } shuffle provider).1 =
      (Quiz.execute quiz shuffle provider).1) ∧
    ((Quiz.execute { quiz with allow_skip := b } shuffle provider).2.map
        Prod.fst =
      (Quiz.execute quiz shuffle provider).2.map Prod.fst) ∧
    ((Quiz.execute_async { quiz with allow_skip := b } shuffle provider).1 =
      (Quiz.execute_async quiz shuffle provider).1) ∧
    ((Quiz.execute_async { quiz with allow_skip := b } shuffle provider).2.map
        Prod.fst =
      (Quiz.execute_async quiz shuffle provider).2.map Prod.fst) := by
  obtain ⟨ti, qs, tlim, ask, sopt, ro, sprog, res⟩ := quiz
  refine ⟨?_, ?_, ?_, ?_, ?_⟩
  · simp [Quiz.execute, execLoop, isTimeUp, answeredStep, recordedAnswer,
      PyVal.truthy, Except.map]
  · by_cases hq : qs = [] <;> simp [Quiz.execute, hq]
  · by_cases hq : qs = []
    · simp [Quiz.execute, hq]
    · simp [Quiz.execute, hq]
      rcases hL : (execLoop tlim provider
          (if ro = true then shuffle qs else qs).length
          (if ro = true then shuffle qs else qs) 1 0).2 with e | ⟨rs, c, p, el⟩ <;>
        simp [hL, Except.map]
  · by_cases hq : qs = [] <;> simp [Quiz.execute_async, hq]
  · by_cases hq : qs = []
    · simp [Quiz.execute_async, hq]
    · simp [Quiz.execute_async, hq]
      rcases hA : (execLoopAsync tlim provider
          (if ro = true then shuffle qs else qs).length
          (if ro = true then shuffle qs else qs) 1 0).2 with e | ⟨rs, c, p, el⟩ <;>
        simp [hA, Except.map]

/-- Claim C9: with `randomize_order` set, the question list driving
iteration is the run-local shuffled copy (every question handed to the
answer source comes from a prefix of `shuffle questions`, in order), and
the quiz's stored question list is returned unchanged by both execution
paths. -/
theorem C9_randomize_frame_effect (quiz : Quiz)
    (shuffle : List Question → List Question)
    (provider : Question → Nat → PyVal × ℚ)
    (h : quiz.randomize_order = true) :
    ((Quiz.execute quiz shuffle provider).2.map (fun p => p.2.questions) =
      (Quiz.execute quiz shuffle provider).2.map (fun _ => quiz.questions)) ∧
    ((Quiz.execute_async quiz shuffle provider).2.map (fun p => p.2.questions) =
      (Quiz.execute_async quiz shuffle provider).2.map
        (fun _ => quiz.questions)) ∧
    (askedQuestions (Quiz.execute quiz shuffle provider).1 <+:
      shuffle quiz.questions) ∧
    (askedQuestions (Quiz.execute_async quiz shuffle provider).1 <+:
      shuffle quiz.questions) := by
  obtain ⟨ti, qs, tlim, ask, sopt, ro, sprog, res⟩ := quiz
  simp only at h
  subst h
  refine ⟨?_, ?_, ?_, ?_⟩ <;>
    simp only [Quiz.execute, Quiz.execute_async] <;>
    by_cases hq : qs.isEmpty = true
  · simp [hq, Except.map]
  · simp only [hq, Bool.false_eq_true, if_false, if_true]
    rcases hL : execLoop tlim provider (shuffle qs).length (shuffle qs) 1 0
      with ⟨evs, out⟩
    simp only [hL]
    cases out <;> simp [Except.map]
  · simp [hq, Except.map]
  · simp only [hq, Bool.false_eq_true, if_false, if_true]
    rcases hA : execLoopAsync tlim provider (shuffle qs).length (shuffle qs) 1 0
      with ⟨evsA, outA⟩
    simp only [hA]
    cases outA <;> simp [Except.map]
  · simp [hq, askedQuestions_nil]
  · simp only [hq, Bool.false_eq_true, if_false, if_true]
    have := execLoop_asked_in_order tlim provider (shuffle qs).length
      (shuffle qs) 1 0
    simpa using this
  · simp [hq, askedQuestions_nil]
  · simp only [hq, Bool.false_eq_true, if_false, if_true]
    have := execLoopAsync_asked_in_order tlim provider (shuffle qs).length
      (shuffle qs) 1 0
    simpa using this

/-- Witness for C3 (amended) at a concrete two-question quiz with a
zero aggregate budget. -/
theorem C3_async_timeout_records_nothing_witness :
    (((Quiz.mk "T"
        [Question.mk "q1" Option.none Option.none (.trueFalse true),
         Question.mk "q2" Option.none Option.none (.trueFalse false)]
        (some 0) false false false true Option.none).execute_async (fun l => l)
      (fun _ _ => (.bool true, 0))).2.map
        (fun p => p.1.question_results) = .ok []) ∧
    (∃ q0, ((Quiz.mk "T"
        [Question.mk "q1" Option.none Option.none (.trueFalse true),
         Question.mk "q2" Option.none Option.none (.trueFalse false)]
        (some 0) false false false true Option.none).execute_async (fun l => l)
      (fun _ _ => (.bool true, 0))).1 =
        [Event.timeoutEvent q0 1
          (Quiz.mk "T"
            [Question.mk "q1" Option.none Option.none (.trueFalse true),
             Question.mk "q2" Option.none Option.none (.trueFalse false)]
            (some 0) false false false true Option.none).questions.length]) ∧
    (((Quiz.mk "T"
        [Question.mk "q1" Option.none Option.none (.trueFalse true),
         Question.mk "q2" Option.none Option.none (.trueFalse false)]
        (some 0) false false false true Option.none).execute (fun l => l)
      (fun _ _ => (.bool true, 0))).2.map
        (fun p => p.1.question_results.map QuestionResult.status) =
      .ok (List.replicate
        ((Quiz.mk "T"
          [Question.mk "q1" Option.none Option.none (.trueFalse true),
           Question.mk "q2" Option.none Option.none (.trueFalse false)]
          (some 0) false false false true Option.none).questions.length - 1)
        ResultStatus.timeout)) :=
  C3_async_timeout_records_nothing _ _ _ (fun l => List.Perm.refl l)
    (List.cons_ne_nil _ _) rfl

/-- Witness for C9 at a concrete randomized quiz with a reversing
shuffle oracle. -/
theorem C9_randomize_frame_effect_witness :
    (((Quiz.mk "R"
        [Question.mk "a" Option.none Option.none (.trueFalse true),
         Question.mk "b" Option.none Option.none (.trueFalse false)]
        Option.none false false true true Option.none).execute
        (fun l => l.reverse) (fun _ _ => (.str "x", 0))).2.map
      (fun p => p.2.questions) =
      ((Quiz.mk "R"
        [Question.mk "a" Option.none Option.none (.trueFalse true),
         Question.mk "b" Option.none Option.none (.trueFalse false)]
        Option.none false false true true Option.none).execute
        (fun l => l.reverse) (fun _ _ => (.str "x", 0))).2.map
      (fun _ => (Quiz.mk "R"
        [Question.mk "a" Option.none Option.none (.trueFalse true),
         Question.mk "b" Option.none Option.none (.trueFalse false)]
        Option.none false false true true Option.none).questions)) ∧
    (askedQuestions ((Quiz.mk "R"
        [Question.mk "a" Option.none Option.none (.trueFalse true),
         Question.mk "b" Option.none Option.none (.trueFalse false)]
        Option.none false false true true Option.none).execute
        (fun l => l.reverse) (fun _ _ => (.str "x", 0))).1 <+:
      (fun l => List.reverse l)
        (Quiz.mk "R"
          [Question.mk "a" Option.none Option.none (.trueFalse true),
           Question.mk "b" Option.none Option.none (.trueFalse false)]
          Option.none false false true true Option.none).questions) :=
  ⟨(C9_randomize_frame_effect _ (fun l => l.reverse) (fun _ _ => (.str "x", 0))
      rfl).1,
   (C9_randomize_frame_effect _ (fun l => l.reverse) (fun _ _ => (.str "x", 0))
      rfl).2.2.1⟩

/-- Claim C10: a falsy but non-None submitted answer is still passed to
`check_answer` and scored normally, yet is recorded in the
QuestionResult as the empty string and handed to the post-question
callback as the empty string; in particular a TrueFalse question whose
canonical answer is False, answered with the boolean False, yields
status CORRECT with score 1 while the recorded user_answer is "". -/
theorem C10_falsy_answer_recorded_empty (q : Question) (ua : PyVal)
    (t : ℚ) (title : String) (hne : ua ≠ .none) (hf : ua.truthy = false) :
    recordedAnswer ua = .str "" ∧
    answeredStep q ua = (q.check_answer ua).map scoreOutcome ∧
    (((Quiz.mk title
        [Question.mk "tf" Option.none Option.none (.trueFalse false)]
        Option.none false false false true Option.none).execute (fun l => l)
        (fun _ _ => (.bool false, t))).2.map
      (fun p => (p.1.question_results, p.1.correct_answers)) =
      .ok ([QuestionResult.mk 0 (.str "") (.bool false) .correct t 1], 1)) ∧
    (((Quiz.mk title
        [Question.mk "tf" Option.none Option.none (.trueFalse false)]
        Option.none false false false true Option.none).execute (fun l => l)
        (fun _ _ => (.bool false, t))).1 =
      [Event.preQuestion
          (Question.mk "tf" Option.none Option.none (.trueFalse false)) 1 1,
       Event.getAnswer
          (Question.mk "tf" Option.none Option.none (.trueFalse false)) 0,
       Event.postQuestion
          (Question.mk "tf" Option.none Option.none (.trueFalse false)) 1
          (.str "") .correct t]) := by
  refine ⟨?_, ?_, ?_, ?_⟩
  · simp [recordedAnswer, hf]
  · cases ua with
    | none => exact absurd rfl hne
    | bool b => rfl
    | int n => rfl
    | str s => rfl
    | list xs => rfl
    | dict m => rfl
  · simp [Quiz.execute, execLoop, isTimeUp, answeredStep, Question.check_answer,
      checkTrueFalse, scoreOutcome, recordedAnswer, PyVal.truthy, Except.map,
      Question.correct_answer]
  · simp [Quiz.execute, execLoop, isTimeUp, answeredStep, Question.check_answer,
      checkTrueFalse, scoreOutcome, recordedAnswer, PyVal.truthy, Except.map,
      Question.correct_answer]

/-- Witness for C10 with the boolean False submission itself. -/
theorem C10_falsy_answer_recorded_empty_witness :
    recordedAnswer (.bool false) = .str "" ∧
    answeredStep (Question.mk "tf" Option.none Option.none (.trueFalse false))
        (.bool false) =
      ((Question.mk "tf" Option.none Option.none
          (.trueFalse false)).check_answer (.bool false)).map scoreOutcome ∧
    (((Quiz.mk "w"
        [Question.mk "tf" Option.none Option.none (.trueFalse false)]
        Option.none false false false true Option.none).execute (fun l => l)
        (fun _ _ => (.bool false, 0))).2.map
      (fun p => (p.1.question_results, p.1.correct_answers)) =
      .ok ([QuestionResult.mk 0 (.str "") (.bool false) .correct 0 1], 1)) ∧
    (((Quiz.mk "w"
        [Question.mk "tf" Option.none Option.none (.trueFalse false)]
        Option.none false false false true Option.none).execute (fun l => l)
        (fun _ _ => (.bool false, 0))).1 =
      [Event.preQuestion
          (Question.mk "tf" Option.none Option.none (.trueFalse false)) 1 1,
       Event.getAnswer
          (Question.mk "tf" Option.none Option.none (.trueFalse false)) 0,
       Event.postQuestion
          (Question.mk "tf" Option.none Option.none (.trueFalse false)) 1
          (.str "") .correct 0]) :=
  C10_falsy_answer_recorded_empty
    (Question.mk "tf" Option.none Option.none (.trueFalse false))
    (.bool false) 0 "w" (by decide) rfl

end Quizy
